import Mathlib

/-!
Verification of `src/scripts/kelkoo_merchant_feed_s1_us.py`.

The script is embedded shallowly: Python/JSON values become the inductive
type `JVal`, Python dicts become association lists (`PyDict`), fallible
Python code (code that can raise `AttributeError`/`TypeError`/`HTTPError`)
becomes `Except String`.  The wall clock (`now_utc`) is passed in as an
explicit parameter: `normalize` receives a `clock : Nat → String` giving
the isoformat timestamp observed on its i-th loop iteration, and
`write_xml` receives the timestamp string used for the root attribute.
-/

namespace Kelkoo

/-- A Python/JSON value as handled by the script. Numbers are modelled by
`Int` (the script only manipulates them via truthiness and `str`). -/
inductive JVal where
  | null
  | bool (b : Bool)
  | num (n : Int)
  | str (s : String)
  | arr (xs : List JVal)
  | obj (fs : List (String × JVal))

/-- A Python dict with string keys, as an association list (first binding
wins on lookup, matching the unique-key dicts produced by JSON parsing). -/
abbrev PyDict := List (String × JVal)

/-- Python truthiness (`bool(v)`) for the values of `JVal`. -/
def py_truthy : JVal → Bool
  | .null => false
  | .bool b => b
  | .num n => n != 0
  | .str s => s != ""
  | .arr xs => !xs.isEmpty
  | .obj fs => !fs.isEmpty

/-- Python `a or b` (returns `a` when truthy, otherwise `b`). -/
def pyOrV (a b : JVal) : JVal := if py_truthy a then a else b

/-- Dict lookup returning the stored value when the key is present. -/
def dlookup : PyDict → String → Option JVal
  | [], _ => none
  | (k, v) :: rest, key => if k = key then some v else dlookup rest key

/-- Python `d.get(key)` (default `None`). -/
def dget (r : PyDict) (k : String) : JVal := (dlookup r k).getD .null

/-- `_sg(d, key, default)` from the script: `val = d.get(key, default);
return default if val is None else val`. -/
def _sg (r : PyDict) (k : String) (d : JVal) : JVal :=
  match dlookup r k with
  | none => d
  | some .null => d
  | some v => v

/-- `_sg` applied to an arbitrary value: Python raises `AttributeError`
when `.get` is called on a non-dict. -/
def _sgv (v : JVal) (k : String) (d : JVal) : Except String JVal :=
  match v with
  | .obj fs => .ok (_sg fs k d)
  | _ => .error "AttributeError"

/-- ASCII whitespace as stripped by Python `str.strip()`. -/
def isSpaceChar (c : Char) : Bool :=
  c == ' ' || c == '\t' || c == '\n' || c == '\r' || c == '\x0b' || c == '\x0c'

/-- Python `str.strip()` (ASCII whitespace). -/
def pyStrip (s : String) : String :=
  String.mk (((s.data.dropWhile isSpaceChar).reverse.dropWhile isSpaceChar).reverse)

/-- Python `str.lower()` (ASCII). -/
def pyLower (s : String) : String := String.mk (s.data.map Char.toLower)

/-- Python `str.upper()` (ASCII). -/
def pyUpperStr (s : String) : String := String.mk (s.data.map Char.toUpper)

/-- `v.upper()` on an arbitrary value: only strings carry `.upper`. -/
def pyUpperV : JVal → Except String String
  | .str s => .ok (pyUpperStr s)
  | _ => .error "AttributeError"

/-- `_to_bool` from the script. -/
def _to_bool : JVal → Bool
  | .bool b => b
  | .num n => n != 0
  | .str s =>
      let t := pyLower (pyStrip s)
      t == "1" || t == "true" || t == "yes"
  | _ => false

mutual

/-- Python `str(v)`. -/
def pyStr : JVal → String
  | .null => "None"
  | .bool true => "True"
  | .bool false => "False"
  | .num n => toString n
  | .str s => s
  | .arr xs => "[" ++ pyReprList xs ++ "]"
  | .obj fs => "\x7b" ++ pyReprFields fs ++ "\x7d"

/-- Python `repr(v)` (as rendered inside container reprs: like `str`
except that strings gain quotes). -/
def pyRepr : JVal → String
  | .null => "None"
  | .bool true => "True"
  | .bool false => "False"
  | .num n => toString n
  | .str s => "\x27" ++ s ++ "\x27"
  | .arr xs => "[" ++ pyReprList xs ++ "]"
  | .obj fs => "\x7b" ++ pyReprFields fs ++ "\x7d"
termination_by structural v => v

def pyReprList : List JVal → String
  | [] => ""
  | [v] => pyRepr v
  | v :: vs => pyRepr v ++ ", " ++ pyReprList vs
termination_by structural l => l

def pyReprFields : List (String × JVal) → String
  | [] => ""
  | [(k, v)] => "\x27" ++ k ++ "\x27: " ++ pyRepr v
  | (k, v) :: fs => "\x27" ++ k ++ "\x27: " ++ pyRepr v ++ ", " ++ pyReprFields fs
termination_by structural l => l

end

/-- JSON string escaping as done by `json.dumps` (`ensure_ascii=False`). -/
def jsonEscapeChar (c : Char) : String :=
  if c = '\x22' then "\\\x22"
  else if c = '\\' then "\\\\"
  else if c = '\n' then "\\n"
  else if c = '\t' then "\\t"
  else if c = '\r' then "\\r"
  else if c.toNat < 32 then "\\u" ++ (Nat.toDigits 16 c.toNat).asString
  else String.singleton c

def jsonEscape (s : String) : String := String.join (s.data.map jsonEscapeChar)

mutual

/-- Compact `json.dumps(v, ensure_ascii=False, separators=(",", ":"))`. -/
def jsonDumps : JVal → String
  | .null => "null"
  | .bool true => "true"
  | .bool false => "false"
  | .num n => toString n
  | .str s => "\x22" ++ jsonEscape s ++ "\x22"
  | .arr xs => "[" ++ jsonDumpsArr xs ++ "]"
  | .obj fs => "\x7b" ++ jsonDumpsObj fs ++ "\x7d"
termination_by structural v => v

def jsonDumpsArr : List JVal → String
  | [] => ""
  | [v] => jsonDumps v
  | v :: vs => jsonDumps v ++ "," ++ jsonDumpsArr vs
termination_by structural l => l

def jsonDumpsObj : List (String × JVal) → String
  | [] => ""
  | [(k, v)] => "\x22" ++ jsonEscape k ++ "\x22:" ++ jsonDumps v
  | (k, v) :: fs => "\x22" ++ jsonEscape k ++ "\x22:" ++ jsonDumps v ++ "," ++ jsonDumpsObj fs
termination_by structural l => l

end

/-- `n` spaces, for the indented `json.dump`. -/
def padSp (n : Nat) : String := String.mk (List.replicate n ' ')

mutual

/-- `json.dump(v, indent=2)` (item separator `,`, key separator `: `),
at current indentation `ind`. -/
def jsonDumpsI (ind : Nat) : JVal → String
  | .arr [] => "[]"
  | .arr xs => "[\n" ++ jsonDumpsIArr ind xs ++ "\n" ++ padSp ind ++ "]"
  | .obj [] => "\x7b\x7d"
  | .obj fs => "\x7b\n" ++ jsonDumpsIObj ind fs ++ "\n" ++ padSp ind ++ "\x7d"
  | v => jsonDumps v
termination_by structural v => v

def jsonDumpsIArr (ind : Nat) : List JVal → String
  | [] => ""
  | [v] => padSp (ind + 2) ++ jsonDumpsI (ind + 2) v
  | v :: vs => padSp (ind + 2) ++ jsonDumpsI (ind + 2) v ++ ",\n" ++ jsonDumpsIArr ind vs
termination_by structural l => l

def jsonDumpsIObj (ind : Nat) : List (String × JVal) → String
  | [] => ""
  | [(k, v)] => padSp (ind + 2) ++ "\x22" ++ jsonEscape k ++ "\x22: " ++ jsonDumpsI (ind + 2) v
  | (k, v) :: fs =>
      padSp (ind + 2) ++ "\x22" ++ jsonEscape k ++ "\x22: " ++ jsonDumpsI (ind + 2) v
        ++ ",\n" ++ jsonDumpsIObj ind fs
termination_by structural l => l

end

/-- Python `for x in v`: lists yield elements, strings yield 1-char
strings, dicts yield keys, everything else raises `TypeError`. -/
def pyIter : JVal → Except String (List JVal)
  | .arr xs => .ok xs
  | .str s => .ok (s.data.map (fun c => .str (String.singleton c)))
  | .obj fs => .ok (fs.map (fun p => .str p.1))
  | _ => .error "TypeError"

/-- Ordered effectful map (a Python loop body run left to right, the
first raise aborting the whole loop). -/
def mapME {α β : Type} (f : α → Except String β) : List α → Except String (List β)
  | [] => .ok []
  | a :: as => do
      let b ← f a
      let bs ← mapME f as
      pure (b :: bs)

-- ===== Constants from the script =====

def DEFAULT_COUNTRY : String := "us"

def CONTAINER_KEYS : List String := ["merchants", "data", "items", "results"]

-- ===== normalize =====

/-- `merchant_id = str(r.get("merchant_id") or r.get("merchantId") or r.get("id") or "")`. -/
def merchant_idOf (r : PyDict) : String :=
  pyStr (pyOrV (dget r "merchant_id") (pyOrV (dget r "merchantId") (pyOrV (dget r "id") (.str ""))))

/-- `merchant_name = r.get("merchant_name") or r.get("merchantName") or r.get("name") or ""`. -/
def merchant_nameOf (r : PyDict) : JVal :=
  pyOrV (dget r "merchant_name") (pyOrV (dget r "merchantName") (pyOrV (dget r "name") (.str "")))

/-- `domain = r.get("domain") or r.get("root_domain") or r.get("website") or ""`. -/
def domainOf (r : PyDict) : JVal :=
  pyOrV (dget r "domain") (pyOrV (dget r "root_domain") (pyOrV (dget r "website") (.str "")))

/-- The value whose `.upper()` produces `country`:
`r.get("country") or r.get("country_code") or DEFAULT_COUNTRY`. -/
def countryChain (r : PyDict) : JVal :=
  pyOrV (dget r "country") (pyOrV (dget r "country_code") (.str DEFAULT_COUNTRY))

/-- `logo = r.get("logo") or r.get("logo_url") or r.get("image") or r.get("logoUrl") or ""`. -/
def logoOf (r : PyDict) : JVal :=
  pyOrV (dget r "logo")
    (pyOrV (dget r "logo_url") (pyOrV (dget r "image") (pyOrV (dget r "logoUrl") (.str ""))))

/-- `homepage = r.get("homepage") or r.get("merchant_url") or r.get("url")
or (f"https://{domain}" if domain else "")`. -/
def homepageOf (r : PyDict) : JVal :=
  pyOrV (dget r "homepage")
    (pyOrV (dget r "merchant_url")
      (pyOrV (dget r "url")
        (if py_truthy (domainOf r) then .str ("https://" ++ pyStr (domainOf r)) else .str "")))

/-- `x or []` applied to a fetched container field. -/
def orEmptyList (v : JVal) : JVal := pyOrV v (.arr [])

/-- `x or {}` applied to a fetched object field. -/
def orEmptyObj (v : JVal) : JVal := pyOrV v (.obj [])

def k_idOf (r : PyDict) : JVal :=
  _sg r "id" (if merchant_idOf r != "" then .str (merchant_idOf r) else .num 0)

def k_categoriesOf (r : PyDict) : JVal := orEmptyList (_sg r "categories" (.arr []))
def k_directoryLinksOf (r : PyDict) : JVal := orEmptyList (_sg r "directoryLinks" (.arr []))
def k_cpcsBySubIdOf (r : PyDict) : JVal := orEmptyList (_sg r "cpcsBySubId" (.arr []))
def k_cpcsBySubIdForLinksOf (r : PyDict) : JVal := orEmptyList (_sg r "cpcsBySubIdForLinks" (.arr []))
def k_prospectionValuesOf (r : PyDict) : JVal := orEmptyList (_sg r "prospectionValues" (.arr []))

/-- Body of the `categories` comprehension in `normalize`. -/
def normCategory (c : JVal) : Except String JVal := do
  let id ← _sgv c "id" (.num 0)
  let name ← _sgv c "name" (.str "")
  let numberOfOffers ← _sgv c "numberOfOffers" (.num 0)
  let estimatedCpc ← _sgv c "estimatedCpc" (.num 0)
  let mobileEstimatedCpc ← _sgv c "mobileEstimatedCpc" (.num 0)
  pure (.obj [("id", id), ("name", name), ("numberOfOffers", numberOfOffers),
    ("estimatedCpc", estimatedCpc), ("mobileEstimatedCpc", mobileEstimatedCpc)])

/-- Body of the `directoryLinks` comprehension in `normalize`. -/
def normDirectoryLink (d : JVal) : Except String JVal := do
  let urlTemplate ← _sgv d "urlTemplate" (.str "")
  let estimatedCpc ← _sgv d "estimatedCpc" (.num 0)
  let mobileEstimatedCpc ← _sgv d "mobileEstimatedCpc" (.num 0)
  let eventType ← _sgv d "eventType" (.str "")
  let eventStartDate ← _sgv d "eventStartDate" (.num 0)
  let eventEndDate ← _sgv d "eventEndDate" (.num 0)
  pure (.obj [("urlTemplate", urlTemplate), ("estimatedCpc", estimatedCpc),
    ("mobileEstimatedCpc", mobileEstimatedCpc), ("eventType", eventType),
    ("eventStartDate", eventStartDate), ("eventEndDate", eventEndDate)])

/-- Body of the `cpcsBySubId` / `cpcsBySubIdForLinks` comprehensions. -/
def normCpcBySubId (s : JVal) : Except String JVal := do
  let id ← _sgv s "id" (.str "")
  let estimatedCpc ← _sgv s "estimatedCpc" (.num 0)
  let mobileEstimatedCpc ← _sgv s "mobileEstimatedCpc" (.num 0)
  pure (.obj [("id", id), ("estimatedCpc", estimatedCpc),
    ("mobileEstimatedCpc", mobileEstimatedCpc)])

/-- Body of the `prospectionValues` comprehension. -/
def normProspection (p : JVal) : Except String JVal := do
  let simulatedVpl ← _sgv p "simulatedVpl" (.str "")
  let simulatedDesktopCpc ← _sgv p "simulatedDesktopCpc" (.num 0)
  let simulatedMobileCpc ← _sgv p "simulatedMobileCpc" (.num 0)
  pure (.obj [("simulatedVpl", simulatedVpl), ("simulatedDesktopCpc", simulatedDesktopCpc),
    ("simulatedMobileCpc", simulatedMobileCpc)])

def catsStep (r : PyDict) : Except String (List JVal) := do
  mapME normCategory (← pyIter (k_categoriesOf r))

def dlsStep (r : PyDict) : Except String (List JVal) := do
  mapME normDirectoryLink (← pyIter (k_directoryLinksOf r))

def subId1Step (r : PyDict) : Except String (List JVal) := do
  mapME normCpcBySubId (← pyIter (k_cpcsBySubIdOf r))

def subId2Step (r : PyDict) : Except String (List JVal) := do
  mapME normCpcBySubId (← pyIter (k_cpcsBySubIdForLinksOf r))

def prosStep (r : PyDict) : Except String (List JVal) := do
  mapME normProspection (← pyIter (k_prospectionValuesOf r))

/-- The dict literal appended to `out` by `normalize`, given the already
computed country string and comprehension results. -/
def outRecord (t : String) (r : PyDict) (country : String)
    (cats dls s1 s2 pros : List JVal) : PyDict :=
  [("merchant_id", .str (merchant_idOf r)),
   ("merchant_name", merchant_nameOf r),
   ("domain", domainOf r),
   ("country", .str country),
   ("logo", logoOf r),
   ("homepage", homepageOf r),
   ("updated_at", .str t),
   ("id", k_idOf r),
   ("name", _sg r "name" (merchant_nameOf r)),
   ("url", _sg r "url" (homepageOf r)),
   ("summary", _sg r "summary" (.str "")),
   ("logoUrl", _sg r "logoUrl" (logoOf r)),
   ("websiteId", _sg r "websiteId" (.num 0)),
   ("deliveryCountries", orEmptyList (_sg r "deliveryCountries" (.arr []))),
   ("categories", .arr cats),
   ("directoryLinks", .arr dls),
   ("supportsLinks", .bool (_to_bool (_sg r "supportsLinks" (.bool false)))),
   ("supportsLinksOfferMatch", .bool (_to_bool (_sg r "supportsLinksOfferMatch" (.bool false)))),
   ("supportsLinksMerchantMatch", .bool (_to_bool (_sg r "supportsLinksMerchantMatch" (.bool false)))),
   ("forbiddenTrafficTypes", orEmptyList (_sg r "forbiddenTrafficTypes" (.arr []))),
   ("targetCos", orEmptyObj (_sg r "targetCos" (.obj []))),
   ("currency", _sg r "currency" (.str "")),
   ("visibilityRecentlyChanged", orEmptyObj (_sg r "visibilityRecentlyChanged" (.obj []))),
   ("visible", .bool (_to_bool (_sg r "visible" (.bool true)))),
   ("isNew", .bool (_to_bool (_sg r "isNew" (.bool false)))),
   ("merchantEstimatedCpc", _sg r "merchantEstimatedCpc" (.num 0)),
   ("merchantMobileEstimatedCpc", _sg r "merchantMobileEstimatedCpc" (.num 0)),
   ("merchantTier", _sg r "merchantTier" (.str "")),
   ("topNetworkCpc", _sg r "topNetworkCpc" (.num 0)),
   ("topNetworkCpcLinks", _sg r "topNetworkCpcLinks" (.num 0)),
   ("topNetworkVpl", _sg r "topNetworkVpl" (.num 0)),
   ("topNetworkVplLinks", _sg r "topNetworkVplLinks" (.num 0)),
   ("cpcsBySubId", .arr s1),
   ("cpcsBySubIdForLinks", .arr s2),
   ("spotlight", .bool (_to_bool (_sg r "spotlight" (.bool false)))),
   ("prospectionValues", .arr pros)]

/-- One iteration of the `for r in rows` loop of `normalize` (the record
appended to `out`), with `t` the timestamp `now_utc().isoformat()`
observed by this iteration.  The fallible operations are sequenced in
source order: the `.upper()` call, then the five comprehensions in the
order they occur in the dict literal. -/
def normRecord (t : String) (r : PyDict) : Except String PyDict := do
  let country ← pyUpperV (countryChain r)
  let cats ← catsStep r
  let dls ← dlsStep r
  let s1 ← subId1Step r
  let s2 ← subId2Step r
  let pros ← prosStep r
  pure (outRecord t r country cats dls s1 s2 pros)

def normalizeGo (clock : Nat → String) : Nat → List PyDict → Except String (List PyDict)
  | _, [] => .ok []
  | i, r :: rs => do
      let o ← normRecord (clock i) r
      let os ← normalizeGo clock (i + 1) rs
      pure (o :: os)

/-- `normalize(rows)` from the script.  `clock i` is the string returned
by `now_utc().isoformat()` during the i-th iteration. -/
def normalize (clock : Nat → String) (rows : List PyDict) : Except String (List PyDict) :=
  normalizeGo clock 0 rows

-- ===== fetch_from_kelkoo =====

/-- A response body: either content that `r.json()` parses successfully,
or content on which `r.json()` raises `ValueError`. -/
inductive RespBody where
  | jsonBody (v : JVal)
  | textBody (s : String)

structure HttpResponse where
  status : Nat
  body : RespBody

/-- `requests.Response.raise_for_status()`: raises `HTTPError` exactly
for client errors (4xx) and server errors (5xx). -/
def raise_for_status (status : Nat) : Except String Unit :=
  if 400 ≤ status ∧ status ≤ 599 then .error "HTTPError" else .ok ()

/-- The `for key in (...)` loop over container keys in `fetch_from_kelkoo`:
the first listed key whose value is a list wins. -/
def firstListKey (fs : PyDict) : List String → Option (List JVal)
  | [] => none
  | k :: ks =>
      match dlookup fs k with
      | some (.arr xs) => some xs
      | _ => firstListKey fs ks

/-- The JSON branch of `fetch_from_kelkoo`: `some` when the parsed value
is handled there (dict or list), `none` when control falls through to the
XML fallback. -/
def json_records : JVal → Option (List JVal)
  | .obj fs => some ((firstListKey fs CONTAINER_KEYS).getD [JVal.obj fs])
  | .arr xs => some xs
  | _ => none

/-- Outcome of `fetch_from_kelkoo` after the HTTP layer: either the list
of records extracted from JSON, or entry into the XML fallback (whose
`ElementTree` parsing is outside the scope of the verified claims). -/
inductive FetchResult where
  | records (rs : List JVal)
  | xmlFallback

/-- The part of `fetch_from_kelkoo` that runs once the GET returned:
`raise_for_status` followed by body handling. -/
def processResponse (resp : HttpResponse) : Except String FetchResult := do
  raise_for_status resp.status
  match resp.body with
  | .jsonBody v =>
      match json_records v with
      | some rs => pure (.records rs)
      | none => pure .xmlFallback
  | .textBody _ => pure .xmlFallback

/-- `fetch_from_kelkoo()` with its environment made explicit: the token
and URL read from the environment, and the HTTP response the GET would
produce.  The two configuration checks precede any use of the response. -/
def fetch_from_kelkoo (token url : String) (resp : HttpResponse) : Except String FetchResult := do
  if token = "" then throw "KELKOO_TOKEN_1 is not set"
  else if url = "" then throw "KELKOO_MERCHANT_FEED_URL is not set"
  else processResponse resp

-- ===== write_xml / write_json =====

/-- An `xml.etree.ElementTree` element: tag, attributes, text (the empty
string standing for an unset text) and child elements. -/
inductive XNode where
  | mk (tag : String) (attrs : List (String × String)) (text : String) (children : List XNode)

def XNode.tag : XNode → String
  | .mk t _ _ _ => t

def XNode.attrs : XNode → List (String × String)
  | .mk _ a _ _ => a

def XNode.text : XNode → String
  | .mk _ _ t _ => t

def XNode.children : XNode → List XNode
  | .mk _ _ _ cs => cs

/-- The text `_text` stores: `"" if value is None else str(value)`. -/
def textOf (v : JVal) : String :=
  match v with
  | .null => ""
  | v => pyStr v

/-- `_text(elem, name, value)`: the child element it appends. -/
def _textN (name : String) (v : JVal) : XNode := .mk name [] (textOf v) []

/-- `_list(parent, name, items, item_tag, map_fn)`: the container element
it appends.  `map_fn it` yields the children added to each item element;
iterating a non-iterable value raises `TypeError`. -/
def _listN (name : String) (items : JVal) (item_tag : String)
    (map_fn : JVal → Except String (List XNode)) : Except String XNode := do
  let xs ← pyIter (pyOrV items (.arr []))
  let children ← mapME (fun it => do pure (XNode.mk item_tag [] "" (← map_fn it))) xs
  pure (.mk name [] "" children)

/-- `_dict_as_json(parent, name, obj)`: the child element it appends,
holding `json.dumps(obj or {}, ...)` as text. -/
def _dict_as_jsonN (name : String) (obj : JVal) : XNode :=
  .mk name [] (jsonDumps (pyOrV obj (.obj []))) []

/-- `map_category` from `write_xml`. -/
def map_category (c : JVal) : Except String (List XNode) := do
  pure [_textN "Id" (← _sgv c "id" (.num 0)),
    _textN "Name" (← _sgv c "name" (.str "")),
    _textN "NumberOfOffers" (← _sgv c "numberOfOffers" (.num 0)),
    _textN "EstimatedCpc" (← _sgv c "estimatedCpc" (.num 0)),
    _textN "MobileEstimatedCpc" (← _sgv c "mobileEstimatedCpc" (.num 0))]

/-- `map_directory_link` from `write_xml`. -/
def map_directory_link (d : JVal) : Except String (List XNode) := do
  pure [_textN "UrlTemplate" (← _sgv d "urlTemplate" (.str "")),
    _textN "EstimatedCpc" (← _sgv d "estimatedCpc" (.num 0)),
    _textN "MobileEstimatedCpc" (← _sgv d "mobileEstimatedCpc" (.num 0)),
    _textN "EventType" (← _sgv d "eventType" (.str "")),
    _textN "EventStartDate" (← _sgv d "eventStartDate" (.num 0)),
    _textN "EventEndDate" (← _sgv d "eventEndDate" (.num 0))]

/-- `map_cpc_by_subid` from `write_xml`. -/
def map_cpc_by_subid (s : JVal) : Except String (List XNode) := do
  pure [_textN "Id" (← _sgv s "id" (.str "")),
    _textN "EstimatedCpc" (← _sgv s "estimatedCpc" (.num 0)),
    _textN "MobileEstimatedCpc" (← _sgv s "mobileEstimatedCpc" (.num 0))]

/-- `map_prospection` from `write_xml`. -/
def map_prospection (p : JVal) : Except String (List XNode) := do
  pure [_textN "SimulatedVpl" (← _sgv p "simulatedVpl" (.str "")),
    _textN "SimulatedDesktopCpc" (← _sgv p "simulatedDesktopCpc" (.num 0)),
    _textN "SimulatedMobileCpc" (← _sgv p "simulatedMobileCpc" (.num 0))]

/-- `str(_to_bool(...)).lower()` as written for the boolean XML fields. -/
def xmlBoolText (v : JVal) : String := pyLower (pyStr (.bool (_to_bool v)))

/-- The `Merchant` element `write_xml` builds for one row. -/
def merchantElem (r : PyDict) : Except String XNode := do
  let deliveryCountries ← _listN "DeliveryCountries" (_sg r "deliveryCountries" (.arr []))
    "Country" (fun x => .ok [_textN "Code" x])
  let categories ← _listN "Categories" (_sg r "categories" (.arr [])) "Category" map_category
  let directoryLinks ← _listN "DirectoryLinks" (_sg r "directoryLinks" (.arr []))
    "DirectoryLink" map_directory_link
  let forbiddenTrafficTypes ← _listN "ForbiddenTrafficTypes"
    (_sg r "forbiddenTrafficTypes" (.arr [])) "Type" (fun x => .ok [_textN "Name" x])
  let cpcsBySubId ← _listN "CpcsBySubId" (_sg r "cpcsBySubId" (.arr [])) "SubId" map_cpc_by_subid
  let cpcsBySubIdForLinks ← _listN "CpcsBySubIdForLinks" (_sg r "cpcsBySubIdForLinks" (.arr []))
    "SubId" map_cpc_by_subid
  let prospectionValues ← _listN "ProspectionValues" (_sg r "prospectionValues" (.arr []))
    "Prospection" map_prospection
  pure (.mk "Merchant" [] ""
    [_textN "MerchantID" (_sg r "merchant_id" (.str "")),
     _textN "MerchantName" (_sg r "merchant_name" (.str "")),
     _textN "Domain" (_sg r "domain" (.str "")),
     _textN "Country" (_sg r "country" (.str "")),
     _textN "LogoUrlCompat" (_sg r "logo" (.str "")),
     _textN "HomepageUrlCompat" (_sg r "homepage" (.str "")),
     _textN "UpdatedAt" (_sg r "updated_at" (.str "")),
     _textN "Id" (_sg r "id" (.num 0)),
     _textN "Name" (_sg r "name" (.str "")),
     _textN "Url" (_sg r "url" (.str "")),
     _textN "Summary" (_sg r "summary" (.str "")),
     _textN "LogoUrl" (_sg r "logoUrl" (.str "")),
     _textN "WebsiteId" (_sg r "websiteId" (.num 0)),
     deliveryCountries,
     categories,
     directoryLinks,
     .mk "SupportsLinks" [] (xmlBoolText (_sg r "supportsLinks" (.bool false))) [],
     .mk "SupportsLinksOfferMatch" [] (xmlBoolText (_sg r "supportsLinksOfferMatch" (.bool false))) [],
     .mk "SupportsLinksMerchantMatch" [] (xmlBoolText (_sg r "supportsLinksMerchantMatch" (.bool false))) [],
     forbiddenTrafficTypes,
     _dict_as_jsonN "TargetCos" (_sg r "targetCos" (.obj [])),
     _textN "Currency" (_sg r "currency" (.str "")),
     _dict_as_jsonN "VisibilityRecentlyChanged" (_sg r "visibilityRecentlyChanged" (.obj [])),
     .mk "Visible" [] (xmlBoolText (_sg r "visible" (.bool true))) [],
     .mk "IsNew" [] (xmlBoolText (_sg r "isNew" (.bool false))) [],
     _textN "MerchantEstimatedCpc" (_sg r "merchantEstimatedCpc" (.num 0)),
     _textN "MerchantMobileEstimatedCpc" (_sg r "merchantMobileEstimatedCpc" (.num 0)),
     _textN "MerchantTier" (_sg r "merchantTier" (.str "")),
     _textN "TopNetworkCpc" (_sg r "topNetworkCpc" (.num 0)),
     _textN "TopNetworkCpcLinks" (_sg r "topNetworkCpcLinks" (.num 0)),
     _textN "TopNetworkVpl" (_sg r "topNetworkVpl" (.num 0)),
     _textN "TopNetworkVplLinks" (_sg r "topNetworkVplLinks" (.num 0)),
     cpcsBySubId,
     cpcsBySubIdForLinks,
     .mk "Spotlight" [] (xmlBoolText (_sg r "spotlight" (.bool false))) [],
     prospectionValues])

/-- `write_xml(rows, path)`: the element tree it serializes.  `t` is the
`now_utc().isoformat()` string stored in the root `updated` attribute. -/
def write_xml (t : String) (rows : List PyDict) : Except String XNode := do
  pure (.mk "Merchants" [("updated", t)] "" (← mapME merchantElem rows))

/-- `write_json(rows, path)`: the bytes it writes
(`json.dump(rows, ensure_ascii=False, indent=2)`). -/
def write_json (rows : List PyDict) : String :=
  jsonDumpsI 0 (.arr (rows.map .obj))

-- ===== Spec-side definitions (formalizing the claims' wording, to be
-- compared with the code-side definitions above) =====

/-- Spec wording for alias resolution: the first truthy value in the
alias list wins, otherwise the default. -/
def firstTruthy (vs : List JVal) (d : JVal) : JVal :=
  match vs with
  | [] => d
  | v :: rest => if py_truthy v then v else firstTruthy rest d

/-- Spec wording of C10 for the coercion of a present, non-null value:
booleans pass through, numbers are true iff nonzero, strings are true iff
their trimmed lower-cased form is 1 / true / yes, anything else is false. -/
def valToBool : JVal → Bool
  | .bool b => b
  | .num n => n != 0
  | .str s =>
      let t := pyLower (pyStrip s)
      t == "1" || t == "true" || t == "yes"
  | _ => false

/-- Spec-side resolution of a boolean output field: coerce the stored
value, defaulting when the key is absent (or bound to null). -/
def specBool (r : PyDict) (k : String) (d : Bool) : Bool :=
  match dlookup r k with
  | none => d
  | some .null => d
  | some v => valToBool v

/-- Spec wording of C4: does this looked-up value hold a list? -/
def isListValue : Option JVal → Bool
  | some (.arr _) => true
  | _ => false

/-- The list held by a looked-up value (empty for non-lists). -/
def listValueOf : Option JVal → List JVal
  | some (.arr xs) => xs
  | _ => []

/-- Drops the `updated_at` binding from a normalized record (claim C1:
identity of outputs up to the update timestamp). -/
def eraseTs (o : PyDict) : PyDict := o.filter (fun p => p.1 ≠ "updated_at")

/-- `eraseTs` applied under `Except` to a `normalize` result. -/
def eraseTsAll (e : Except String (List PyDict)) : Except String (List PyDict) :=
  e.map (List.map eraseTs)

-- ===== The normalized schema as typed records (spec side of C5) =====

/-- A scalar that is a string or a number (the two shapes whose XML text
and JSON rendering encode the same value verbatim). -/
inductive JScalar where
  | ofStr (s : String)
  | ofInt (n : Int)

def JScalar.toJ : JScalar → JVal
  | .ofStr s => .str s
  | .ofInt n => .num n

/-- The text encoding of a scalar (shared by the XML text and the JSON
value it must agree with). -/
def JScalar.enc : JScalar → String
  | .ofStr s => s
  | .ofInt n => toString n

structure SchemaCategory where
  id : Int
  name : String
  numberOfOffers : Int
  estimatedCpc : Int
  mobileEstimatedCpc : Int

def SchemaCategory.toJ (c : SchemaCategory) : JVal :=
  .obj [("id", .num c.id), ("name", .str c.name), ("numberOfOffers", .num c.numberOfOffers),
    ("estimatedCpc", .num c.estimatedCpc), ("mobileEstimatedCpc", .num c.mobileEstimatedCpc)]

structure SchemaDirectoryLink where
  urlTemplate : String
  estimatedCpc : Int
  mobileEstimatedCpc : Int
  eventType : String
  eventStartDate : Int
  eventEndDate : Int

def SchemaDirectoryLink.toJ (d : SchemaDirectoryLink) : JVal :=
  .obj [("urlTemplate", .str d.urlTemplate), ("estimatedCpc", .num d.estimatedCpc),
    ("mobileEstimatedCpc", .num d.mobileEstimatedCpc), ("eventType", .str d.eventType),
    ("eventStartDate", .num d.eventStartDate), ("eventEndDate", .num d.eventEndDate)]

structure SchemaSubIdCpc where
  id : String
  estimatedCpc : Int
  mobileEstimatedCpc : Int

def SchemaSubIdCpc.toJ (s : SchemaSubIdCpc) : JVal :=
  .obj [("id", .str s.id), ("estimatedCpc", .num s.estimatedCpc),
    ("mobileEstimatedCpc", .num s.mobileEstimatedCpc)]

structure SchemaProspection where
  simulatedVpl : String
  simulatedDesktopCpc : Int
  simulatedMobileCpc : Int

def SchemaProspection.toJ (p : SchemaProspection) : JVal :=
  .obj [("simulatedVpl", .str p.simulatedVpl), ("simulatedDesktopCpc", .num p.simulatedDesktopCpc),
    ("simulatedMobileCpc", .num p.simulatedMobileCpc)]

/-- A normalized record carrying the output schema with each field at its
schema type. -/
structure NormRecord where
  merchant_id : String
  merchant_name : String
  domain : String
  country : String
  logo : String
  homepage : String
  updated_at : String
  id : JScalar
  name : String
  url : String
  summary : JScalar
  logoUrl : String
  websiteId : Int
  deliveryCountries : List String
  categories : List SchemaCategory
  directoryLinks : List SchemaDirectoryLink
  supportsLinks : Bool
  supportsLinksOfferMatch : Bool
  supportsLinksMerchantMatch : Bool
  forbiddenTrafficTypes : List String
  targetCos : List (String × JVal)
  currency : String
  visibilityRecentlyChanged : List (String × JVal)
  visible : Bool
  isNew : Bool
  merchantEstimatedCpc : Int
  merchantMobileEstimatedCpc : Int
  merchantTier : String
  topNetworkCpc : Int
  topNetworkCpcLinks : Int
  topNetworkVpl : Int
  topNetworkVplLinks : Int
  cpcsBySubId : List SchemaSubIdCpc
  cpcsBySubIdForLinks : List SchemaSubIdCpc
  spotlight : Bool
  prospectionValues : List SchemaProspection

/-- The JSON record serialized by `write_json` for this normalized
record (the dict shape `normalize` outputs). -/
def NormRecord.toJ (x : NormRecord) : PyDict :=
  [("merchant_id", .str x.merchant_id),
   ("merchant_name", .str x.merchant_name),
   ("domain", .str x.domain),
   ("country", .str x.country),
   ("logo", .str x.logo),
   ("homepage", .str x.homepage),
   ("updated_at", .str x.updated_at),
   ("id", x.id.toJ),
   ("name", .str x.name),
   ("url", .str x.url),
   ("summary", x.summary.toJ),
   ("logoUrl", .str x.logoUrl),
   ("websiteId", .num x.websiteId),
   ("deliveryCountries", .arr (x.deliveryCountries.map .str)),
   ("categories", .arr (x.categories.map SchemaCategory.toJ)),
   ("directoryLinks", .arr (x.directoryLinks.map SchemaDirectoryLink.toJ)),
   ("supportsLinks", .bool x.supportsLinks),
   ("supportsLinksOfferMatch", .bool x.supportsLinksOfferMatch),
   ("supportsLinksMerchantMatch", .bool x.supportsLinksMerchantMatch),
   ("forbiddenTrafficTypes", .arr (x.forbiddenTrafficTypes.map .str)),
   ("targetCos", .obj x.targetCos),
   ("currency", .str x.currency),
   ("visibilityRecentlyChanged", .obj x.visibilityRecentlyChanged),
   ("visible", .bool x.visible),
   ("isNew", .bool x.isNew),
   ("merchantEstimatedCpc", .num x.merchantEstimatedCpc),
   ("merchantMobileEstimatedCpc", .num x.merchantMobileEstimatedCpc),
   ("merchantTier", .str x.merchantTier),
   ("topNetworkCpc", .num x.topNetworkCpc),
   ("topNetworkCpcLinks", .num x.topNetworkCpcLinks),
   ("topNetworkVpl", .num x.topNetworkVpl),
   ("topNetworkVplLinks", .num x.topNetworkVplLinks),
   ("cpcsBySubId", .arr (x.cpcsBySubId.map SchemaSubIdCpc.toJ)),
   ("cpcsBySubIdForLinks", .arr (x.cpcsBySubIdForLinks.map SchemaSubIdCpc.toJ)),
   ("spotlight", .bool x.spotlight),
   ("prospectionValues", .arr (x.prospectionValues.map SchemaProspection.toJ))]

/-- Spec encoding of a boolean in XML text: lowercase true / false. -/
def encBool (b : Bool) : String := if b then "true" else "false"

/-- The `Merchant` element the spec (claim C5) prescribes for a
normalized record: one child per field in the writer's tag order, child
texts encoding the same values the JSON record holds — scalars verbatim,
booleans as lowercase true/false, nested objects as compact JSON strings
and lists as one child element per item. -/
def specMerchant (x : NormRecord) : XNode :=
  .mk "Merchant" [] ""
    [.mk "MerchantID" [] x.merchant_id [],
     .mk "MerchantName" [] x.merchant_name [],
     .mk "Domain" [] x.domain [],
     .mk "Country" [] x.country [],
     .mk "LogoUrlCompat" [] x.logo [],
     .mk "HomepageUrlCompat" [] x.homepage [],
     .mk "UpdatedAt" [] x.updated_at [],
     .mk "Id" [] x.id.enc [],
     .mk "Name" [] x.name [],
     .mk "Url" [] x.url [],
     .mk "Summary" [] x.summary.enc [],
     .mk "LogoUrl" [] x.logoUrl [],
     .mk "WebsiteId" [] (toString x.websiteId) [],
     .mk "DeliveryCountries" [] ""
       (x.deliveryCountries.map (fun c => .mk "Country" [] "" [.mk "Code" [] c []])),
     .mk "Categories" [] ""
       (x.categories.map (fun c => XNode.mk "Category" [] ""
         [.mk "Id" [] (toString c.id) [], .mk "Name" [] c.name [],
          .mk "NumberOfOffers" [] (toString c.numberOfOffers) [],
          .mk "EstimatedCpc" [] (toString c.estimatedCpc) [],
          .mk "MobileEstimatedCpc" [] (toString c.mobileEstimatedCpc) []])),
     .mk "DirectoryLinks" [] ""
       (x.directoryLinks.map (fun d => XNode.mk "DirectoryLink" [] ""
         [.mk "UrlTemplate" [] d.urlTemplate [],
          .mk "EstimatedCpc" [] (toString d.estimatedCpc) [],
          .mk "MobileEstimatedCpc" [] (toString d.mobileEstimatedCpc) [],
          .mk "EventType" [] d.eventType [],
          .mk "EventStartDate" [] (toString d.eventStartDate) [],
          .mk "EventEndDate" [] (toString d.eventEndDate) []])),
     .mk "SupportsLinks" [] (encBool x.supportsLinks) [],
     .mk "SupportsLinksOfferMatch" [] (encBool x.supportsLinksOfferMatch) [],
     .mk "SupportsLinksMerchantMatch" [] (encBool x.supportsLinksMerchantMatch) [],
     .mk "ForbiddenTrafficTypes" [] ""
       (x.forbiddenTrafficTypes.map (fun c => .mk "Type" [] "" [.mk "Name" [] c []])),
     .mk "TargetCos" [] (jsonDumps (.obj x.targetCos)) [],
     .mk "Currency" [] x.currency [],
     .mk "VisibilityRecentlyChanged" [] (jsonDumps (.obj x.visibilityRecentlyChanged)) [],
     .mk "Visible" [] (encBool x.visible) [],
     .mk "IsNew" [] (encBool x.isNew) [],
     .mk "MerchantEstimatedCpc" [] (toString x.merchantEstimatedCpc) [],
     .mk "MerchantMobileEstimatedCpc" [] (toString x.merchantMobileEstimatedCpc) [],
     .mk "MerchantTier" [] x.merchantTier [],
     .mk "TopNetworkCpc" [] (toString x.topNetworkCpc) [],
     .mk "TopNetworkCpcLinks" [] (toString x.topNetworkCpcLinks) [],
     .mk "TopNetworkVpl" [] (toString x.topNetworkVpl) [],
     .mk "TopNetworkVplLinks" [] (toString x.topNetworkVplLinks) [],
     .mk "CpcsBySubId" [] ""
       (x.cpcsBySubId.map (fun s => XNode.mk "SubId" [] ""
         [.mk "Id" [] s.id [], .mk "EstimatedCpc" [] (toString s.estimatedCpc) [],
          .mk "MobileEstimatedCpc" [] (toString s.mobileEstimatedCpc) []])),
     .mk "CpcsBySubIdForLinks" [] ""
       (x.cpcsBySubIdForLinks.map (fun s => XNode.mk "SubId" [] ""
         [.mk "Id" [] s.id [], .mk "EstimatedCpc" [] (toString s.estimatedCpc) [],
          .mk "MobileEstimatedCpc" [] (toString s.mobileEstimatedCpc) []])),
     .mk "Spotlight" [] (encBool x.spotlight) [],
     .mk "ProspectionValues" [] ""
       (x.prospectionValues.map (fun p => XNode.mk "Prospection" [] ""
         [.mk "SimulatedVpl" [] p.simulatedVpl [],
          .mk "SimulatedDesktopCpc" [] (toString p.simulatedDesktopCpc) [],
          .mk "SimulatedMobileCpc" [] (toString p.simulatedMobileCpc) []]))]

-- ===== Well-typedness of raw records (domain of totality, claim C2) =====

def isObjV : JVal → Bool
  | .obj _ => true
  | _ => false

def isObjList : JVal → Bool
  | .arr xs => xs.all isObjV
  | _ => false

def isStrV : JVal → Bool
  | .str _ => true
  | _ => false

/-- The raw records on which `normalize` completes: the country value it
uppercases is a string, and each of the five nested container fields it
iterates is (after the `or []` default) a list of objects. -/
def rawOK (r : PyDict) : Bool :=
  isStrV (countryChain r) && isObjList (k_categoriesOf r) && isObjList (k_directoryLinksOf r)
    && isObjList (k_cpcsBySubIdOf r) && isObjList (k_cpcsBySubIdForLinksOf r)
    && isObjList (k_prospectionValuesOf r)

/-- The key list of the fixed output schema, in output order. -/
def schemaKeys : List String :=
  ["merchant_id", "merchant_name", "domain", "country", "logo", "homepage", "updated_at",
   "id", "name", "url", "summary", "logoUrl", "websiteId", "deliveryCountries", "categories",
   "directoryLinks", "supportsLinks", "supportsLinksOfferMatch", "supportsLinksMerchantMatch",
   "forbiddenTrafficTypes", "targetCos", "currency", "visibilityRecentlyChanged", "visible",
   "isNew", "merchantEstimatedCpc", "merchantMobileEstimatedCpc", "merchantTier",
   "topNetworkCpc", "topNetworkCpcLinks", "topNetworkVpl", "topNetworkVplLinks",
   "cpcsBySubId", "cpcsBySubIdForLinks", "spotlight", "prospectionValues"]

-- ===== Extraction helpers for stating closed witnesses / counterexamples =====

/-- First record of a successful `normalize` run (a placeholder empty
dict on failure). -/
def headOut (e : Except String (List PyDict)) : PyDict :=
  match e with
  | .ok (o :: _) => o
  | _ => []

/-- Record list of a successful `normalize` run. -/
def outListOf (e : Except String (List PyDict)) : List PyDict :=
  match e with
  | .ok os => os
  | .error _ => []

/-- The `i`-th child element (a placeholder element out of range). -/
def childAt (x : XNode) (i : Nat) : XNode :=
  ((x.children.drop i).headD (.mk "" [] "" []))

/-- The document of a successful `write_xml` run. -/
def xmlDocOf (e : Except String XNode) : XNode :=
  match e with
  | .ok doc => doc
  | .error _ => .mk "" [] "" []

-- ===== Basic lemmas about the embedding's monadic glue =====

theorem ok_bind {α β : Type} (a : α) (f : α → Except String β) :
    (Except.ok a >>= f) = f a := rfl

theorem error_bind {α β : Type} (e : String) (f : α → Except String β) :
    ((Except.error e : Except String α) >>= f) = .error e := rfl

theorem pure_eq_ok {α : Type} (a : α) : (pure a : Except String α) = .ok a := rfl

theorem map_bind {α β γ : Type} (x : Except String α) (f : α → Except String β) (g : β → γ) :
    Except.map g (x >>= f) = x >>= fun a => Except.map g (f a) := by
  cases x <;> rfl

theorem bindCongr {α β : Type} (x : Except String α) (f g : α → Except String β)
    (h : ∀ a, f a = g a) : x >>= f = x >>= g := by
  cases x with
  | error e => rfl
  | ok a => exact h a

theorem mapME_map {α β γ : Type} (g : α → β) (f : β → Except String γ) (h : α → γ)
    (hp : ∀ a, f (g a) = .ok (h a)) : ∀ l : List α, mapME f (l.map g) = .ok (l.map h) := by
  intro l
  induction l with
  | nil => rfl
  | cons a as ih => simp [List.map, mapME, hp, ih, ok_bind, pure_eq_ok]

theorem mapME_ok_of_forall {f : JVal → Except String JVal} :
    ∀ l : List JVal, (∀ x ∈ l, ∃ y, f x = .ok y) → ∃ ys, mapME f l = .ok ys := by
  intro l
  induction l with
  | nil => exact fun _ => ⟨[], rfl⟩
  | cons a as ih =>
      intro hall
      obtain ⟨b, hb⟩ := hall a (by simp)
      obtain ⟨bs, hbs⟩ := ih (fun x hx => hall x (by simp [hx]))
      exact ⟨b :: bs, by simp [mapME, hb, hbs, ok_bind, pure_eq_ok]⟩

-- ===== Claim C4 =====

theorem firstListKey_spec (fs : PyDict) : ∀ ks : List String,
    firstListKey fs ks =
      match ks.find? (fun k => isListValue (dlookup fs k)) with
      | some k => some (listValueOf (dlookup fs k))
      | none => none := by
  intro ks
  induction ks with
  | nil => rfl
  | cons k ks ih =>
      unfold firstListKey
      cases h : dlookup fs k with
      | none => simp [List.find?, isListValue, h, ih]
      | some v => cases v <;> simp [List.find?, isListValue, listValueOf, h, ih]

/-- Claim C4: when the fetched body parses as JSON, the JSON branch of
`fetch_from_kelkoo` returns, for an object payload, the list stored under
the first key among merchants, data, items, results whose value is a
list, the singleton of the object itself if no such key holds a list, and
a bare array payload unchanged. -/
theorem c4_json_payload_shapes (fs : PyDict) (xs : List JVal) :
    json_records (.arr xs) = some xs ∧
    json_records (.obj fs) = some (
      match CONTAINER_KEYS.find? (fun k => isListValue (dlookup fs k)) with
      | some k => listValueOf (dlookup fs k)
      | none => [JVal.obj fs]) := by
  refine ⟨rfl, ?_⟩
  show some ((firstListKey fs CONTAINER_KEYS).getD [JVal.obj fs]) = _
  rw [firstListKey_spec]
  cases CONTAINER_KEYS.find? (fun k => isListValue (dlookup fs k)) <;> rfl

-- ===== Claims C6 and C7 =====

theorem fetch_config_ok {token url : String} (ht : token ≠ "") (hu : url ≠ "")
    (resp : HttpResponse) : fetch_from_kelkoo token url resp = processResponse resp := by
  unfold fetch_from_kelkoo
  rw [if_neg ht, if_neg hu]

theorem processResponse_raising (s : Nat) (b : RespBody) (hs : 400 ≤ s ∧ s ≤ 599) :
    processResponse ⟨s, b⟩ = .error "HTTPError" := by
  unfold processResponse raise_for_status
  rw [if_pos hs]
  rfl

/-- Claim C6 (amended): once configuration is present,
`fetch_from_kelkoo` raises `HTTPError` exactly on 4xx/5xx statuses,
before any body parsing (the result is independent of the body), and a
2xx status passes `raise_for_status` without raising. -/
theorem c6_raise_for_status_range (token url : String) (s : Nat) (b b2 : RespBody)
    (ht : token ≠ "") (hu : url ≠ "") :
    (400 ≤ s ∧ s ≤ 599 →
      fetch_from_kelkoo token url ⟨s, b⟩ = .error "HTTPError" ∧
      fetch_from_kelkoo token url ⟨s, b⟩ = fetch_from_kelkoo token url ⟨s, b2⟩) ∧
    (200 ≤ s ∧ s ≤ 299 →
      raise_for_status s = .ok () ∧
      ∃ v, fetch_from_kelkoo token url ⟨s, b⟩ = .ok v) := by
  constructor
  · intro hs
    rw [fetch_config_ok ht hu, fetch_config_ok ht hu,
      processResponse_raising s b hs, processResponse_raising s b2 hs]
    exact ⟨rfl, rfl⟩
  · intro hs
    have hns : ¬(400 ≤ s ∧ s ≤ 599) := by omega
    constructor
    · unfold raise_for_status
      rw [if_neg hns]
    · rw [fetch_config_ok ht hu]
      unfold processResponse raise_for_status
      rw [if_neg hns]
      show ∃ v, (Except.ok () >>= fun _ => _) = Except.ok v
      rw [ok_bind]
      cases b with
      | jsonBody v =>
          cases h : json_records v with
          | some rs => exact ⟨.records rs, by simp [h, pure_eq_ok]⟩
          | none => exact ⟨.xmlFallback, by simp [h, pure_eq_ok]⟩
      | textBody s2 => exact ⟨.xmlFallback, rfl⟩

theorem c6_raise_for_status_range_witness :
    fetch_from_kelkoo "t" "u" ⟨404, .jsonBody (.arr [])⟩ = .error "HTTPError" ∧
    raise_for_status 200 = .ok () :=
  ⟨((c6_raise_for_status_range "t" "u" 404 (.jsonBody (.arr [])) (.jsonBody (.arr []))
      (by decide) (by decide)).1 (by omega)).1,
   ((c6_raise_for_status_range "t" "u" 200 (.jsonBody (.arr [])) (.jsonBody (.arr []))
      (by decide) (by decide)).2 (by omega)).1⟩

/-- Claim C6 counterexample: status 304 lies outside the 2xx range, yet
`fetch_from_kelkoo` does not raise there — it proceeds to body parsing
and returns the parsed records. -/
theorem c6_counterexample :
    fetch_from_kelkoo "t" "u" ⟨304, .jsonBody (.arr [])⟩ = .ok (.records []) ∧
    ¬(200 ≤ 304 ∧ 304 ≤ 299) := ⟨rfl, by omega⟩

/-- Claim C7: `fetch_from_kelkoo` raises when the auth token or the feed
URL is empty — before issuing the request (the result is then independent
of the response) — and with both present it proceeds to the GET and its
response handling. -/
theorem c7_config_required (token url : String) (resp resp2 : HttpResponse) :
    (token = "" → fetch_from_kelkoo token url resp = .error "KELKOO_TOKEN_1 is not set") ∧
    (token ≠ "" → url = "" →
      fetch_from_kelkoo token url resp = .error "KELKOO_MERCHANT_FEED_URL is not set") ∧
    ((token = "" ∨ url = "") →
      fetch_from_kelkoo token url resp = fetch_from_kelkoo token url resp2) ∧
    (token ≠ "" → url ≠ "" → fetch_from_kelkoo token url resp = processResponse resp) := by
  unfold fetch_from_kelkoo
  refine ⟨?_, ?_, ?_, ?_⟩
  · intro h; rw [if_pos h]; rfl
  · intro ht hu; rw [if_neg ht, if_pos hu]; rfl
  · rintro (h | h)
    · rw [if_pos h, if_pos h]
    · by_cases ht : token = ""
      · rw [if_pos ht, if_pos ht]
      · rw [if_neg ht, if_neg ht, if_pos h, if_pos h]
  · intro ht hu; rw [if_neg ht, if_neg hu]

theorem c7_config_required_witness :
    fetch_from_kelkoo "" "u" ⟨200, .jsonBody (.arr [])⟩ = .error "KELKOO_TOKEN_1 is not set" ∧
    fetch_from_kelkoo "t" "" ⟨200, .jsonBody (.arr [])⟩ = .error "KELKOO_MERCHANT_FEED_URL is not set" ∧
    fetch_from_kelkoo "t" "u" ⟨200, .jsonBody (.arr [])⟩ = processResponse ⟨200, .jsonBody (.arr [])⟩ :=
  ⟨(c7_config_required "" "u" ⟨200, .jsonBody (.arr [])⟩ ⟨200, .jsonBody (.arr [])⟩).1 rfl,
   ((c7_config_required "t" "" ⟨200, .jsonBody (.arr [])⟩ ⟨200, .jsonBody (.arr [])⟩).2.1
      (by decide) rfl),
   ((c7_config_required "t" "u" ⟨200, .jsonBody (.arr [])⟩ ⟨200, .jsonBody (.arr [])⟩).2.2.2
      (by decide) (by decide))⟩

-- ===== Claim C1 =====

theorem normRecord_erase (t t' : String) (r : PyDict) :
    Except.map eraseTs (normRecord t r) = Except.map eraseTs (normRecord t' r) := by
  unfold normRecord
  simp only [map_bind]
  apply bindCongr; intro c
  apply bindCongr; intro cats
  apply bindCongr; intro dls
  apply bindCongr; intro s1
  apply bindCongr; intro s2
  apply bindCongr; intro pros
  rfl

theorem normalizeGo_erase (c1 c2 : Nat → String) (rows : List PyDict) :
    ∀ i j, Except.map (List.map eraseTs) (normalizeGo c1 i rows)
      = Except.map (List.map eraseTs) (normalizeGo c2 j rows) := by
  induction rows with
  | nil => intro i j; rfl
  | cons r rs ih =>
      intro i j
      unfold normalizeGo
      have hr := normRecord_erase (c1 i) (c2 j) r
      cases h1 : normRecord (c1 i) r with
      | error e =>
          cases h2 : normRecord (c2 j) r with
          | error e2 =>
              rw [h1, h2] at hr
              simp only [Except.map] at hr
              cases hr
              simp [error_bind, Except.map]
          | ok o2 => rw [h1, h2] at hr; simp [Except.map] at hr
      | ok o =>
          cases h2 : normRecord (c2 j) r with
          | error e2 => rw [h1, h2] at hr; simp [Except.map] at hr
          | ok o2 =>
              rw [h1, h2] at hr
              simp only [Except.map] at hr
              have he : eraseTs o = eraseTs o2 := by
                injection hr
              have hgo := ih (i + 1) (j + 1)
              simp only [ok_bind]
              cases h3 : normalizeGo c1 (i + 1) rs with
              | error e =>
                  cases h4 : normalizeGo c2 (j + 1) rs with
                  | error e2 =>
                      rw [h3, h4] at hgo
                      simp only [Except.map] at hgo
                      cases hgo
                      simp [error_bind, Except.map]
                  | ok os2 => rw [h3, h4] at hgo; simp [Except.map] at hgo
              | ok os =>
                  cases h4 : normalizeGo c2 (j + 1) rs with
                  | error e2 => rw [h3, h4] at hgo; simp [Except.map] at hgo
                  | ok os2 =>
                      rw [h3, h4] at hgo
                      simp only [Except.map] at hgo
                      have he2 : os.map eraseTs = os2.map eraseTs := by
                        injection hgo
                      simp [ok_bind, pure_eq_ok, Except.map, he, he2]

/-- Claim C1 (amended): `normalize` is deterministic apart from the
`updated_at` timestamp it embeds in every record — for any two clock
readings, dropping `updated_at` from each output record yields identical
results (including identical error behaviour). -/
theorem c1_deterministic_modulo_timestamp (clock1 clock2 : Nat → String) (rows : List PyDict) :
    eraseTsAll (normalize clock1 rows) = eraseTsAll (normalize clock2 rows) :=
  normalizeGo_erase clock1 clock2 rows 0 0

/-- Claim C1 counterexample: two invocations of `normalize` on the same
input list differ when the wall clock has moved — the `updated_at` field
records the invocation time, so the output does not depend on the input
alone. -/
theorem c1_counterexample :
    Except.map (List.map (fun o => dget o "updated_at"))
      (normalize (fun _ => "2024-01-01T00:00:00+00:00") [[]])
      = .ok [JVal.str "2024-01-01T00:00:00+00:00"] ∧
    Except.map (List.map (fun o => dget o "updated_at"))
      (normalize (fun _ => "2024-01-02T00:00:00+00:00") [[]])
      = .ok [JVal.str "2024-01-02T00:00:00+00:00"] ∧
    normalize (fun _ => "2024-01-01T00:00:00+00:00") [[]]
      ≠ normalize (fun _ => "2024-01-02T00:00:00+00:00") [[]] := by
  refine ⟨rfl, rfl, ?_⟩
  intro h
  have h2 := congrArg (Except.map (List.map (fun o => dget o "updated_at"))) h
  rw [show Except.map (List.map (fun o => dget o "updated_at"))
        (normalize (fun _ => "2024-01-01T00:00:00+00:00") [[]])
        = .ok [JVal.str "2024-01-01T00:00:00+00:00"] from rfl,
      show Except.map (List.map (fun o => dget o "updated_at"))
        (normalize (fun _ => "2024-01-02T00:00:00+00:00") [[]])
        = .ok [JVal.str "2024-01-02T00:00:00+00:00"] from rfl] at h2
  injection h2 with h3
  injection h3 with h4 h5
  injection h4 with h6
  exact absurd h6 (by decide)

-- ===== Inversion of a successful normalize run =====

theorem normRecord_ok_elim {t : String} {r o : PyDict}
    (h : normRecord t r = .ok o) :
    ∃ c cats dls s1 s2 pros,
      pyUpperV (countryChain r) = .ok c ∧ catsStep r = .ok cats ∧ dlsStep r = .ok dls ∧
      subId1Step r = .ok s1 ∧ subId2Step r = .ok s2 ∧ prosStep r = .ok pros ∧
      o = outRecord t r c cats dls s1 s2 pros := by
  unfold normRecord at h
  cases h1 : pyUpperV (countryChain r) with
  | error e => rw [h1] at h; simp [error_bind] at h
  | ok c =>
  rw [h1] at h; simp only [ok_bind] at h
  cases h2 : catsStep r with
  | error e => rw [h2] at h; simp [error_bind] at h
  | ok cats =>
  rw [h2] at h; simp only [ok_bind] at h
  cases h3 : dlsStep r with
  | error e => rw [h3] at h; simp [error_bind] at h
  | ok dls =>
  rw [h3] at h; simp only [ok_bind] at h
  cases h4 : subId1Step r with
  | error e => rw [h4] at h; simp [error_bind] at h
  | ok s1 =>
  rw [h4] at h; simp only [ok_bind] at h
  cases h5 : subId2Step r with
  | error e => rw [h5] at h; simp [error_bind] at h
  | ok s2 =>
  rw [h5] at h; simp only [ok_bind] at h
  cases h6 : prosStep r with
  | error e => rw [h6] at h; simp [error_bind] at h
  | ok pros =>
  rw [h6] at h; simp only [ok_bind, pure_eq_ok] at h
  injection h with h7
  exact ⟨c, cats, dls, s1, s2, pros, rfl, rfl, rfl, rfl, rfl, rfl, h7.symm⟩

theorem normalize_single {clock : Nat → String} {r o : PyDict}
    (h : normalize clock [r] = .ok [o]) : normRecord (clock 0) r = .ok o := by
  unfold normalize normalizeGo at h
  cases h1 : normRecord (clock 0) r with
  | error e => rw [h1] at h; simp [error_bind] at h
  | ok o2 =>
      rw [h1] at h
      simp only [ok_bind, pure_eq_ok] at h
      injection h with h2
      injection h2 with h3 h4
      rw [h3]

-- ===== Claim C3 =====

/-- Claim C3 (amended): each legacy output field tries its source aliases
in the stated fixed order, but resolution is by Python truthiness — the
first alias with a truthy value wins, and the default is substituted
exactly when every alias is absent or falsy. -/
theorem c3_alias_resolution (clock : Nat → String) (r o : PyDict)
    (h : normalize clock [r] = .ok [o]) :
    dget o "merchant_id"
      = .str (pyStr (firstTruthy [dget r "merchant_id", dget r "merchantId", dget r "id"] (.str ""))) ∧
    dget o "merchant_name"
      = firstTruthy [dget r "merchant_name", dget r "merchantName", dget r "name"] (.str "") ∧
    dget o "domain"
      = firstTruthy [dget r "domain", dget r "root_domain", dget r "website"] (.str "") ∧
    dget o "logo"
      = firstTruthy [dget r "logo", dget r "logo_url", dget r "image", dget r "logoUrl"] (.str "") ∧
    dget o "homepage"
      = firstTruthy [dget r "homepage", dget r "merchant_url", dget r "url"]
          (if py_truthy (firstTruthy [dget r "domain", dget r "root_domain", dget r "website"] (.str ""))
           then .str ("https://" ++ pyStr (firstTruthy [dget r "domain", dget r "root_domain", dget r "website"] (.str "")))
           else .str "") := by
  obtain ⟨c, cats, dls, s1, s2, pros, _, _, _, _, _, _, ho⟩ :=
    normRecord_ok_elim (normalize_single h)
  subst ho
  exact ⟨rfl, rfl, rfl, rfl, rfl⟩

theorem c3_alias_resolution_witness :
    dget (headOut (normalize (fun _ => "T")
        [[("merchant_name", JVal.str ""), ("merchantName", JVal.str "B")]])) "merchant_id"
      = .str "" ∧
    dget (headOut (normalize (fun _ => "T")
        [[("merchant_name", JVal.str ""), ("merchantName", JVal.str "B")]])) "merchant_name"
      = .str "B" ∧
    dget (headOut (normalize (fun _ => "T")
        [[("merchant_name", JVal.str ""), ("merchantName", JVal.str "B")]])) "domain"
      = .str "" ∧
    dget (headOut (normalize (fun _ => "T")
        [[("merchant_name", JVal.str ""), ("merchantName", JVal.str "B")]])) "logo"
      = .str "" ∧
    dget (headOut (normalize (fun _ => "T")
        [[("merchant_name", JVal.str ""), ("merchantName", JVal.str "B")]])) "homepage"
      = .str "" :=
  c3_alias_resolution (fun _ => "T")
    [("merchant_name", JVal.str ""), ("merchantName", JVal.str "B")]
    (headOut (normalize (fun _ => "T")
      [[("merchant_name", JVal.str ""), ("merchantName", JVal.str "B")]])) rfl

/-- Claim C3 counterexample: in `{"merchant_id": 0, "merchantId": 7}` the
alias `merchant_id` is present (value 0), yet the output `merchant_id` is
"7" rather than the first present alias's value "0" — a present but falsy
alias is skipped. -/
theorem c3_counterexample :
    dlookup [("merchant_id", JVal.num 0), ("merchantId", JVal.num 7)] "merchant_id"
      = some (JVal.num 0) ∧
    Except.map (List.map (fun o => dget o "merchant_id"))
      (normalize (fun _ => "T") [[("merchant_id", JVal.num 0), ("merchantId", JVal.num 7)]])
      = .ok [JVal.str "7"] ∧
    pyStr (JVal.num 0) ≠ "7" :=
  ⟨rfl, rfl, by decide⟩

-- ===== Claim C8 =====

theorem pyOrV_truthy (a b : JVal) (hb : py_truthy b = true) : py_truthy (pyOrV a b) = true := by
  unfold pyOrV
  by_cases ha : py_truthy a
  · rw [if_pos ha]; exact ha
  · rw [if_neg ha]; exact hb

theorem countryChain_truthy (r : PyDict) : py_truthy (countryChain r) = true :=
  pyOrV_truthy _ _ (pyOrV_truthy _ _ (by decide))

theorem pyUpperStr_ne_empty {s : String} (h : s ≠ "") : pyUpperStr s ≠ "" := by
  cases s with
  | mk l =>
      cases l with
      | nil => exact absurd rfl h
      | cons c cs =>
          intro he
          have hd : (Char.toUpper c :: cs.map Char.toUpper) = ([] : List Char) :=
            congrArg String.data he
          exact List.cons_ne_nil _ _ hd

/-- Claim C8: every record `normalize` produces carries a country equal
to the uppercased first truthy of the record's country and country_code
fields (necessarily a string for the record to be produced), "US" when
both are missing or falsy; it is an uppercased string and never empty. -/
theorem c8_country_field (clock : Nat → String) (r o : PyDict)
    (h : normalize clock [r] = .ok [o]) :
    ∃ s, countryChain r = .str s ∧
      countryChain r = firstTruthy [dget r "country", dget r "country_code"] (.str DEFAULT_COUNTRY) ∧
      dget o "country" = .str (pyUpperStr s) ∧
      pyUpperStr s ≠ "" ∧
      (py_truthy (dget r "country") = false → py_truthy (dget r "country_code") = false →
        dget o "country" = .str "US") := by
  obtain ⟨c, cats, dls, s1, s2, pros, hc, _, _, _, _, _, ho⟩ :=
    normRecord_ok_elim (normalize_single h)
  subst ho
  cases hcc : countryChain r with
  | null => rw [hcc] at hc; simp [pyUpperV] at hc
  | bool b => rw [hcc] at hc; simp [pyUpperV] at hc
  | num n => rw [hcc] at hc; simp [pyUpperV] at hc
  | arr xs => rw [hcc] at hc; simp [pyUpperV] at hc
  | obj fs => rw [hcc] at hc; simp [pyUpperV] at hc
  | str s =>
      rw [hcc] at hc
      injection hc with hcu
      refine ⟨s, rfl, by rw [← hcc]; rfl, ?_, ?_, ?_⟩
      · show JVal.str c = _
        rw [hcu]
      · have ht : py_truthy (countryChain r) = true := countryChain_truthy r
        rw [hcc] at ht
        have hne : s ≠ "" := by simpa [py_truthy] using ht
        exact pyUpperStr_ne_empty hne
      · intro hf1 hf2
        have hdef : countryChain r = .str DEFAULT_COUNTRY := by
          unfold countryChain pyOrV
          rw [if_neg (by simp [hf1]), if_neg (by simp [hf2])]
        rw [hcc] at hdef
        injection hdef with hsu
        show JVal.str c = _
        rw [← hcu, hsu]
        rfl

theorem c8_country_field_witness :
    ∃ s, countryChain [("country_code", JVal.str "de")] = .str s ∧
      countryChain [("country_code", JVal.str "de")]
        = firstTruthy [dget [("country_code", JVal.str "de")] "country",
            dget [("country_code", JVal.str "de")] "country_code"] (.str DEFAULT_COUNTRY) ∧
      dget (headOut (normalize (fun _ => "T") [[("country_code", JVal.str "de")]])) "country"
        = .str (pyUpperStr s) ∧
      pyUpperStr s ≠ "" ∧
      (py_truthy (dget [("country_code", JVal.str "de")] "country") = false →
        py_truthy (dget [("country_code", JVal.str "de")] "country_code") = false →
        dget (headOut (normalize (fun _ => "T") [[("country_code", JVal.str "de")]])) "country"
          = .str "US") :=
  c8_country_field (fun _ => "T") [("country_code", JVal.str "de")]
    (headOut (normalize (fun _ => "T") [[("country_code", JVal.str "de")]])) rfl

-- ===== Claim C9 =====

/-- Claim C9: when no truthy homepage, merchant_url or url field exists
and the resolved domain is a string, the legacy homepage field becomes
"https://" prepended to the domain when non-empty, and the empty string
when the domain is also empty. -/
theorem c9_homepage_fallback (clock : Nat → String) (r o : PyDict) (d : String)
    (h : normalize clock [r] = .ok [o])
    (h1 : py_truthy (dget r "homepage") = false)
    (h2 : py_truthy (dget r "merchant_url") = false)
    (h3 : py_truthy (dget r "url") = false)
    (hd : domainOf r = .str d) :
    dget o "homepage" = (if d = "" then JVal.str "" else .str ("https://" ++ d)) := by
  obtain ⟨c, cats, dls, s1, s2, pros, _, _, _, _, _, _, ho⟩ :=
    normRecord_ok_elim (normalize_single h)
  subst ho
  show homepageOf r = _
  unfold homepageOf pyOrV
  rw [if_neg (by simp [h1]), if_neg (by simp [h2]), if_neg (by simp [h3]), hd]
  by_cases hde : d = ""
  · subst hde
    simp [py_truthy]
  · simp [py_truthy, hde, pyStr]

theorem c9_homepage_fallback_witness :
    dget (headOut (normalize (fun _ => "T") [[("domain", JVal.str "example.com")]])) "homepage"
      = (if ("example.com" : String) = "" then JVal.str ""
         else .str ("https://" ++ "example.com")) :=
  c9_homepage_fallback (fun _ => "T") [("domain", JVal.str "example.com")]
    (headOut (normalize (fun _ => "T") [[("domain", JVal.str "example.com")]]))
    "example.com" rfl rfl rfl rfl rfl

-- ===== Claim C10 =====

theorem toBool_sg (r : PyDict) (k : String) (d : Bool) :
    _to_bool (_sg r k (.bool d)) = specBool r k d := by
  unfold _sg specBool
  cases h : dlookup r k with
  | none => rfl
  | some v => cases v <;> rfl

/-- Claim C10 (amended): each of the six boolean output fields is the
coercion of its stored value — booleans pass through, numbers are true
iff nonzero, strings are true iff their trimmed lower-cased form is
1 / true / yes, any other non-null value yields false — except that a
null value is treated like an absent one: the default applies (true for
visible, false for the other five). -/
theorem c10_bool_fields (clock : Nat → String) (r o : PyDict)
    (h : normalize clock [r] = .ok [o]) :
    dget o "supportsLinks" = .bool (specBool r "supportsLinks" false) ∧
    dget o "supportsLinksOfferMatch" = .bool (specBool r "supportsLinksOfferMatch" false) ∧
    dget o "supportsLinksMerchantMatch" = .bool (specBool r "supportsLinksMerchantMatch" false) ∧
    dget o "visible" = .bool (specBool r "visible" true) ∧
    dget o "isNew" = .bool (specBool r "isNew" false) ∧
    dget o "spotlight" = .bool (specBool r "spotlight" false) := by
  obtain ⟨c, cats, dls, s1, s2, pros, _, _, _, _, _, _, ho⟩ :=
    normRecord_ok_elim (normalize_single h)
  subst ho
  refine ⟨?_, ?_, ?_, ?_, ?_, ?_⟩ <;> rw [← toBool_sg] <;> rfl

theorem c10_bool_fields_witness :
    dget (headOut (normalize (fun _ => "T") [[]])) "supportsLinks" = .bool false ∧
    dget (headOut (normalize (fun _ => "T") [[]])) "supportsLinksOfferMatch" = .bool false ∧
    dget (headOut (normalize (fun _ => "T") [[]])) "supportsLinksMerchantMatch" = .bool false ∧
    dget (headOut (normalize (fun _ => "T") [[]])) "visible" = .bool true ∧
    dget (headOut (normalize (fun _ => "T") [[]])) "isNew" = .bool false ∧
    dget (headOut (normalize (fun _ => "T") [[]])) "spotlight" = .bool false :=
  c10_bool_fields (fun _ => "T") [] (headOut (normalize (fun _ => "T") [[]])) rfl

/-- Claim C10 counterexample: `{"visible": null}` — null is neither a
boolean, a number nor a string, so per the claim it should coerce to
false, but the code treats it as absent and `visible` comes out true. -/
theorem c10_counterexample :
    Except.map (List.map (fun o => dget o "visible"))
      (normalize (fun _ => "T") [[("visible", JVal.null)]])
      = .ok [JVal.bool true] ∧
    _to_bool JVal.null = false :=
  ⟨rfl, rfl⟩

-- ===== Claim C2 =====

theorem normCategory_obj (fs : PyDict) : ∃ y, normCategory (.obj fs) = .ok y := ⟨_, rfl⟩

theorem normDirectoryLink_obj (fs : PyDict) : ∃ y, normDirectoryLink (.obj fs) = .ok y := ⟨_, rfl⟩

theorem normCpcBySubId_obj (fs : PyDict) : ∃ y, normCpcBySubId (.obj fs) = .ok y := ⟨_, rfl⟩

theorem normProspection_obj (fs : PyDict) : ∃ y, normProspection (.obj fs) = .ok y := ⟨_, rfl⟩

theorem objStep_ok {g : JVal → Except String JVal}
    (hg : ∀ fs : PyDict, ∃ y, g (.obj fs) = .ok y) {v : JVal} (hv : isObjList v = true) :
    ∃ ys, (do mapME g (← pyIter v)) = .ok ys := by
  cases v with
  | null => simp [isObjList] at hv
  | bool b => simp [isObjList] at hv
  | num n => simp [isObjList] at hv
  | str s => simp [isObjList] at hv
  | obj fs => simp [isObjList] at hv
  | arr xs =>
      have hall : ∀ x ∈ xs, ∃ y, g x = .ok y := by
        intro x hx
        have hobj : isObjV x = true := by
          simp only [isObjList, List.all_eq_true] at hv
          exact hv x hx
        cases x with
        | obj fs => exact hg fs
        | null => simp [isObjV] at hobj
        | bool b => simp [isObjV] at hobj
        | num n => simp [isObjV] at hobj
        | str s => simp [isObjV] at hobj
        | arr ys => simp [isObjV] at hobj
      obtain ⟨ys, hys⟩ := mapME_ok_of_forall xs hall
      exact ⟨ys, by simp [pyIter, ok_bind, hys]⟩

theorem normRecord_ok_of_rawOK {r : PyDict} (hr : rawOK r = true) (t : String) :
    ∃ o, normRecord t r = .ok o ∧ o.map Prod.fst = schemaKeys := by
  unfold rawOK at hr
  simp only [Bool.and_eq_true] at hr
  obtain ⟨⟨⟨⟨⟨h0, h1⟩, h2⟩, h3⟩, h4⟩, h5⟩ := hr
  obtain ⟨cats, hcats⟩ : ∃ ys, catsStep r = .ok ys := objStep_ok normCategory_obj h1
  obtain ⟨dls, hdls⟩ : ∃ ys, dlsStep r = .ok ys := objStep_ok normDirectoryLink_obj h2
  obtain ⟨s1, hs1⟩ : ∃ ys, subId1Step r = .ok ys := objStep_ok normCpcBySubId_obj h3
  obtain ⟨s2, hs2⟩ : ∃ ys, subId2Step r = .ok ys := objStep_ok normCpcBySubId_obj h4
  obtain ⟨pros, hpros⟩ : ∃ ys, prosStep r = .ok ys := objStep_ok normProspection_obj h5
  cases hcv : countryChain r with
  | null => rw [hcv] at h0; simp [isStrV] at h0
  | bool b => rw [hcv] at h0; simp [isStrV] at h0
  | num n => rw [hcv] at h0; simp [isStrV] at h0
  | arr xs => rw [hcv] at h0; simp [isStrV] at h0
  | obj fs => rw [hcv] at h0; simp [isStrV] at h0
  | str s =>
      refine ⟨outRecord t r (pyUpperStr s) cats dls s1 s2 pros, ?_, rfl⟩
      unfold normRecord
      rw [hcv]
      simp only [pyUpperV, ok_bind, hcats, hdls, hs1, hs2, hpros, pure_eq_ok]

/-- Claim C2 (amended): `normalize` is total — one full-schema record per
input record, with defaults for missing fields — on every record list
whose country value is a string and whose five iterated container fields
(categories, directoryLinks, cpcsBySubId, cpcsBySubIdForLinks,
prospectionValues) hold lists of (possibly partial) objects; outside that
domain a type error is raised. -/
theorem c2_total_on_welltyped (clock : Nat → String) (rows : List PyDict)
    (hall : ∀ r ∈ rows, rawOK r = true) :
    ∃ out, normalize clock rows = .ok out ∧ out.length = rows.length ∧
      ∀ o ∈ out, o.map Prod.fst = schemaKeys := by
  have hgen : ∀ rs : List PyDict, (∀ r ∈ rs, rawOK r = true) → ∀ i,
      ∃ out, normalizeGo clock i rs = .ok out ∧ out.length = rs.length ∧
        ∀ o ∈ out, o.map Prod.fst = schemaKeys := by
    intro rs
    induction rs with
    | nil => exact fun _ _ => ⟨[], rfl, rfl, by simp⟩
    | cons r rs2 ih =>
        intro hall2 i
        obtain ⟨o, ho, hk⟩ := normRecord_ok_of_rawOK (hall2 r (by simp)) (clock i)
        obtain ⟨out, hout, hlen, hks⟩ := ih (fun x hx => hall2 x (by simp [hx])) (i + 1)
        refine ⟨o :: out, ?_, ?_, ?_⟩
        · unfold normalizeGo
          rw [ho]
          simp only [ok_bind]
          rw [hout]
          simp only [ok_bind, pure_eq_ok]
        · simp [hlen]
        · intro o2 ho2
          cases List.mem_cons.mp ho2 with
          | inl hh => rw [hh]; exact hk
          | inr hh => exact hks o2 hh
  exact hgen rows hall 0

theorem c2_total_on_welltyped_witness :
    ∃ out, normalize (fun _ => "T")
        [[("categories", JVal.arr [JVal.obj [("name", JVal.str "x")]])], []] = .ok out ∧
      out.length = 2 ∧ ∀ o ∈ out, o.map Prod.fst = schemaKeys :=
  c2_total_on_welltyped (fun _ => "T")
    [[("categories", JVal.arr [JVal.obj [("name", JVal.str "x")]])], []] (by decide)

/-- Claim C2 counterexample: the JSON object `{"country": 1}` is a raw
record on which `normalize` raises — `(1).upper()` is an attribute error —
so normalize is not total over all JSON objects. -/
theorem c2_counterexample :
    normalize (fun _ => "T") [[("country", JVal.num 1)]] = .error "AttributeError" := rfl

-- ===== Claim C5 =====

theorem pyOrV_arr_empty (xs : List JVal) : pyOrV (.arr xs) (.arr []) = .arr xs := by
  cases xs <;> rfl

theorem pyOrV_obj_empty (fs : PyDict) : pyOrV (.obj fs) (.obj []) = .obj fs := by
  cases fs <;> rfl

theorem listN_map {α : Type} (name item_tag : String) (g : α → JVal)
    (mf : JVal → Except String (List XNode)) (h : α → List XNode)
    (hp : ∀ a, mf (g a) = .ok (h a)) (l : List α) :
    _listN name (.arr (l.map g)) item_tag mf
      = .ok (.mk name [] "" (l.map (fun a => .mk item_tag [] "" (h a)))) := by
  unfold _listN
  rw [pyOrV_arr_empty]
  simp only [pyIter, ok_bind]
  rw [mapME_map g (fun it => mf it >>= fun cs => pure (XNode.mk item_tag [] "" cs))
      (fun a => XNode.mk item_tag [] "" (h a))
      (fun a => by
        show (mf (g a) >>= fun cs => pure (XNode.mk item_tag [] "" cs))
          = Except.ok (XNode.mk item_tag [] "" (h a))
        rw [hp a]
        rfl) l]
  rfl

theorem map_category_toJ (c : SchemaCategory) :
    map_category c.toJ = .ok
      [.mk "Id" [] (toString c.id) [], .mk "Name" [] c.name [],
       .mk "NumberOfOffers" [] (toString c.numberOfOffers) [],
       .mk "EstimatedCpc" [] (toString c.estimatedCpc) [],
       .mk "MobileEstimatedCpc" [] (toString c.mobileEstimatedCpc) []] := rfl

theorem map_directory_link_toJ (d : SchemaDirectoryLink) :
    map_directory_link d.toJ = .ok
      [.mk "UrlTemplate" [] d.urlTemplate [],
       .mk "EstimatedCpc" [] (toString d.estimatedCpc) [],
       .mk "MobileEstimatedCpc" [] (toString d.mobileEstimatedCpc) [],
       .mk "EventType" [] d.eventType [],
       .mk "EventStartDate" [] (toString d.eventStartDate) [],
       .mk "EventEndDate" [] (toString d.eventEndDate) []] := rfl

theorem map_cpc_by_subid_toJ (s : SchemaSubIdCpc) :
    map_cpc_by_subid s.toJ = .ok
      [.mk "Id" [] s.id [], .mk "EstimatedCpc" [] (toString s.estimatedCpc) [],
       .mk "MobileEstimatedCpc" [] (toString s.mobileEstimatedCpc) []] := rfl

theorem map_prospection_toJ (p : SchemaProspection) :
    map_prospection p.toJ = .ok
      [.mk "SimulatedVpl" [] p.simulatedVpl [],
       .mk "SimulatedDesktopCpc" [] (toString p.simulatedDesktopCpc) [],
       .mk "SimulatedMobileCpc" [] (toString p.simulatedMobileCpc) []] := rfl

theorem xmlBoolText_bool (b : Bool) : xmlBoolText (.bool b) = encBool b := by
  cases b <;> rfl

theorem xmlBool_supportsLinks (x : NormRecord) :
    xmlBoolText (_sg x.toJ "supportsLinks" (.bool false)) = encBool x.supportsLinks := by
  show xmlBoolText (.bool x.supportsLinks) = _
  exact xmlBoolText_bool x.supportsLinks

theorem xmlBool_supportsLinksOfferMatch (x : NormRecord) :
    xmlBoolText (_sg x.toJ "supportsLinksOfferMatch" (.bool false))
      = encBool x.supportsLinksOfferMatch := by
  show xmlBoolText (.bool x.supportsLinksOfferMatch) = _
  exact xmlBoolText_bool x.supportsLinksOfferMatch

theorem xmlBool_supportsLinksMerchantMatch (x : NormRecord) :
    xmlBoolText (_sg x.toJ "supportsLinksMerchantMatch" (.bool false))
      = encBool x.supportsLinksMerchantMatch := by
  show xmlBoolText (.bool x.supportsLinksMerchantMatch) = _
  exact xmlBoolText_bool x.supportsLinksMerchantMatch

theorem xmlBool_visible (x : NormRecord) :
    xmlBoolText (_sg x.toJ "visible" (.bool true)) = encBool x.visible := by
  show xmlBoolText (.bool x.visible) = _
  exact xmlBoolText_bool x.visible

theorem xmlBool_isNew (x : NormRecord) :
    xmlBoolText (_sg x.toJ "isNew" (.bool false)) = encBool x.isNew := by
  show xmlBoolText (.bool x.isNew) = _
  exact xmlBoolText_bool x.isNew

theorem xmlBool_spotlight (x : NormRecord) :
    xmlBoolText (_sg x.toJ "spotlight" (.bool false)) = encBool x.spotlight := by
  show xmlBoolText (.bool x.spotlight) = _
  exact xmlBoolText_bool x.spotlight

theorem dict_json_targetCos (x : NormRecord) :
    _dict_as_jsonN "TargetCos" (_sg x.toJ "targetCos" (.obj []))
      = .mk "TargetCos" [] (jsonDumps (.obj x.targetCos)) [] := by
  show _dict_as_jsonN "TargetCos" (.obj x.targetCos) = _
  unfold _dict_as_jsonN
  rw [pyOrV_obj_empty]

theorem dict_json_vrc (x : NormRecord) :
    _dict_as_jsonN "VisibilityRecentlyChanged" (_sg x.toJ "visibilityRecentlyChanged" (.obj []))
      = .mk "VisibilityRecentlyChanged" [] (jsonDumps (.obj x.visibilityRecentlyChanged)) [] := by
  show _dict_as_jsonN "VisibilityRecentlyChanged" (.obj x.visibilityRecentlyChanged) = _
  unfold _dict_as_jsonN
  rw [pyOrV_obj_empty]

theorem textOf_scalar (j : JScalar) : textOf j.toJ = j.enc := by
  cases j <;> rfl

theorem textN_id (x : NormRecord) :
    _textN "Id" (_sg x.toJ "id" (.num 0)) = .mk "Id" [] x.id.enc [] := by
  have hs : _sg x.toJ "id" (.num 0) = x.id.toJ := by
    have hl : dlookup x.toJ "id" = some x.id.toJ := rfl
    unfold _sg
    rw [hl]
    cases x.id <;> rfl
  rw [hs]
  unfold _textN
  rw [textOf_scalar]

theorem textN_summary (x : NormRecord) :
    _textN "Summary" (_sg x.toJ "summary" (.str "")) = .mk "Summary" [] x.summary.enc [] := by
  have hs : _sg x.toJ "summary" (.str "") = x.summary.toJ := by
    have hl : dlookup x.toJ "summary" = some x.summary.toJ := rfl
    unfold _sg
    rw [hl]
    cases x.summary <;> rfl
  rw [hs]
  unfold _textN
  rw [textOf_scalar]

theorem merchantElem_toJ (x : NormRecord) : merchantElem x.toJ = .ok (specMerchant x) := by
  unfold merchantElem
  rw [show _sg x.toJ "deliveryCountries" (.arr [])
        = .arr (x.deliveryCountries.map JVal.str) from rfl,
      listN_map "DeliveryCountries" "Country" JVal.str _
        (fun s => [XNode.mk "Code" [] s []]) (fun s => rfl) x.deliveryCountries,
      show _sg x.toJ "categories" (.arr [])
        = .arr (x.categories.map SchemaCategory.toJ) from rfl,
      listN_map "Categories" "Category" SchemaCategory.toJ map_category _
        map_category_toJ x.categories,
      show _sg x.toJ "directoryLinks" (.arr [])
        = .arr (x.directoryLinks.map SchemaDirectoryLink.toJ) from rfl,
      listN_map "DirectoryLinks" "DirectoryLink" SchemaDirectoryLink.toJ map_directory_link _
        map_directory_link_toJ x.directoryLinks,
      show _sg x.toJ "forbiddenTrafficTypes" (.arr [])
        = .arr (x.forbiddenTrafficTypes.map JVal.str) from rfl,
      listN_map "ForbiddenTrafficTypes" "Type" JVal.str _
        (fun s => [XNode.mk "Name" [] s []]) (fun s => rfl) x.forbiddenTrafficTypes,
      show _sg x.toJ "cpcsBySubId" (.arr [])
        = .arr (x.cpcsBySubId.map SchemaSubIdCpc.toJ) from rfl,
      show _sg x.toJ "cpcsBySubIdForLinks" (.arr [])
        = .arr (x.cpcsBySubIdForLinks.map SchemaSubIdCpc.toJ) from rfl,
      listN_map "CpcsBySubId" "SubId" SchemaSubIdCpc.toJ map_cpc_by_subid _
        map_cpc_by_subid_toJ x.cpcsBySubId,
      listN_map "CpcsBySubIdForLinks" "SubId" SchemaSubIdCpc.toJ map_cpc_by_subid _
        map_cpc_by_subid_toJ x.cpcsBySubIdForLinks,
      show _sg x.toJ "prospectionValues" (.arr [])
        = .arr (x.prospectionValues.map SchemaProspection.toJ) from rfl,
      listN_map "ProspectionValues" "Prospection" SchemaProspection.toJ map_prospection _
        map_prospection_toJ x.prospectionValues]
  simp only [ok_bind]
  rw [textN_id, textN_summary, xmlBool_supportsLinks, xmlBool_supportsLinksOfferMatch,
      xmlBool_supportsLinksMerchantMatch, dict_json_targetCos, xmlBool_visible, xmlBool_isNew,
      dict_json_vrc, xmlBool_spotlight]
  rfl

/-- Claim C5 (amended): for every record list carrying the normalized
schema's field types, the XML and JSON outputs represent the same record
set: `write_xml` emits exactly one `Merchant` element per record, in the
order of the JSON array `write_json` serializes, and each Merchant's
child texts encode the same field values the JSON record holds (scalars
verbatim, booleans as lowercase true/false, nested objects as compact
JSON strings, lists as one child element per item). -/
theorem c5_xml_json_same_records (ns : List NormRecord) (t : String) :
    write_xml t (ns.map NormRecord.toJ)
      = .ok (.mk "Merchants" [("updated", t)] "" (ns.map specMerchant)) ∧
    write_json (ns.map NormRecord.toJ)
      = jsonDumpsI 0 (.arr ((ns.map NormRecord.toJ).map JVal.obj)) := by
  constructor
  · unfold write_xml
    rw [mapME_map NormRecord.toJ merchantElem specMerchant merchantElem_toJ ns]
    rfl
  · rfl

/-- Claim C5 counterexample: normalize `{"summary": {"a": 1}}` — the JSON
output holds the nested object, but the XML `Summary` text (child 10 of
the Merchant element) is the Python repr of the dict, not the compact
JSON string the claim prescribes for nested objects. -/
theorem c5_counterexample :
    dget (headOut (normalize (fun _ => "T")
        [[("summary", JVal.obj [("a", JVal.num 1)])]])) "summary"
      = .obj [("a", JVal.num 1)] ∧
    XNode.text (childAt (childAt (xmlDocOf (write_xml "T2"
        (outListOf (normalize (fun _ => "T")
          [[("summary", JVal.obj [("a", JVal.num 1)])]])))) 0) 10)
      = "\x7b\x27a\x27: 1\x7d" ∧
    "\x7b\x27a\x27: 1\x7d" ≠ jsonDumps (.obj [("a", JVal.num 1)]) := by
  refine ⟨rfl, rfl, ?_⟩
  decide

end Kelkoo
